import Mathlib

/-! Shallow embedding of src/dronetalker.py: a Flask service with three
sqlite-backed mailboxes (the latest_target row, the command_buffer row and
the drone_logs table). Each request handler is modelled as a pure function
from the request, the current unix time and the database state to the new
database state and the HTTP response. Python floats are modelled by
rationals extended with nan and the two infinities; decimal-to-binary
rounding is idealised away (every numeric value appearing in this
development is exactly representable). -/

/-- Python float values: a finite value (modelled exactly as a rational),
nan, and the two infinities. -/
inductive PyFloat where
  | finite (q : ℚ)
  | nan
  | inf
  | ninf
deriving DecidableEq

/-- Python comparison a > b on floats; every comparison with nan is false. -/
def pyGt : PyFloat → PyFloat → Bool
  | PyFloat.nan, _ => false
  | _, PyFloat.nan => false
  | PyFloat.inf, PyFloat.inf => false
  | PyFloat.inf, _ => true
  | _, PyFloat.inf => false
  | PyFloat.ninf, _ => false
  | _, PyFloat.ninf => true
  | PyFloat.finite a, PyFloat.finite b => decide (b < a)

/-- A JSON scalar value as delivered by request.get_json; compound values
(arrays, objects) never influence the behaviour studied here and are
omitted from the model. -/
inductive Json where
  | null
  | bool (b : Bool)
  | num (q : ℚ)
  | str (s : String)
deriving DecidableEq

/-- data.get k: a missing key and an explicit JSON null both surface as
Python None, so both are modelled by Json.null. -/
def jsonGet (body : List (String × Json)) (k : String) : Json :=
  match body.lookup k with
  | some v => v
  | none => Json.null

/-- Whitespace stripped by Python float() around a string literal. -/
def isPySpace (c : Char) : Bool :=
  c == ' ' || c == '\t' || c == '\n' || c == '\r'

/-- Decimal digit string to a natural number. -/
def digitsToNat (ds : List Char) : Nat :=
  ds.foldl (fun a c => a * 10 + (c.toNat - 48)) 0

/-- Split a leading run of decimal digits from the rest. -/
def takeDigits (l : List Char) : List Char × List Char :=
  (l.takeWhile Char.isDigit, l.dropWhile Char.isDigit)

/-- Consume an optional leading sign; true means negative. -/
def parseSign : List Char → Bool × List Char
  | '-' :: rest => (true, rest)
  | '+' :: rest => (false, rest)
  | l => (false, l)

/-- Parse the exponent part following the e of a float literal and scale the
mantissa by it; the exponent digits must be non-empty and final. -/
def parseWithExp (mant : ℚ) (l : List Char) : Option ℚ :=
  let (eneg, r) := parseSign l
  let (eds, r2) := takeDigits r
  if eds.isEmpty || !r2.isEmpty then none
  else some (if eneg then mant / ((10 : ℚ) ^ digitsToNat eds)
             else mant * ((10 : ℚ) ^ digitsToNat eds))

/-- Parse the body of a decimal float literal (sign already stripped):
integer digits, an optional fractional part, an optional exponent; at least
one digit must be present. -/
def parseDecimal (l : List Char) : Option ℚ :=
  let (ipart, r1) := takeDigits l
  let (fpart, r2) :=
    match r1 with
    | '.' :: rest => takeDigits rest
    | _ => (([] : List Char), r1)
  if ipart.isEmpty && fpart.isEmpty then none
  else
    let mant : ℚ :=
      (digitsToNat ipart : ℚ) + (digitsToNat fpart : ℚ) / ((10 : ℚ) ^ fpart.length)
    match r2 with
    | [] => some mant
    | 'e' :: rest => parseWithExp mant rest
    | 'E' :: rest => parseWithExp mant rest
    | _ => none

/-- Python float() applied to a string: strip surrounding whitespace, read an
optional sign, then nan / inf / infinity (case-insensitive) or a decimal
literal; underscore digit separators and exotic unicode digits are not
modelled. -/
def pyFloatOfString (s : String) : Option PyFloat :=
  let cs := ((s.data.dropWhile isPySpace).reverse.dropWhile isPySpace).reverse
  let (neg, body) := parseSign cs
  let lower := body.map Char.toLower
  if lower = ['n', 'a', 'n'] then some PyFloat.nan
  else if lower = ['i', 'n', 'f'] || lower = ['i', 'n', 'f', 'i', 'n', 'i', 't', 'y'] then
    some (if neg then PyFloat.ninf else PyFloat.inf)
  else
    match parseDecimal body with
    | some q => some (PyFloat.finite (if neg then -q else q))
    | none => none

/-- Python float() applied to a JSON scalar: None and unparsable strings
raise (modelled as none); booleans convert to 0.0 and 1.0. -/
def pyFloat : Json → Option PyFloat
  | Json.null => none
  | Json.bool b => some (PyFloat.finite (if b then 1 else 0))
  | Json.num q => some (PyFloat.finite q)
  | Json.str s => pyFloatOfString s

/-- Python str() applied to a JSON scalar; the textual rendering of numbers
is abbreviated to the rational literal, which no handler ever inspects. -/
def pyStr : Json → String
  | Json.null => "None"
  | Json.bool true => "True"
  | Json.bool false => "False"
  | Json.num q => toString q
  | Json.str s => s

/-- Abbreviated rendering of a float for the audit log strings built by the
handlers; no handler ever reads these strings back, so the exact decimal
formatting of the source f-strings is immaterial. -/
def pyFloatRepr : PyFloat → String
  | PyFloat.finite q => toString q
  | PyFloat.nan => "nan"
  | PyFloat.inf => "inf"
  | PyFloat.ninf => "-inf"

/-- Python truthiness of a JSON scalar, as used by the if msg check. -/
def pyTruthy : Json → Bool
  | Json.null => false
  | Json.bool b => b
  | Json.num q => decide (q ≠ 0)
  | Json.str s => decide (s ≠ "")

/-- One row of the latest_target table when populated (lat not NULL). -/
structure PositionRecord where
  lat : PyFloat
  lon : PyFloat
  accuracy : PyFloat
  created_at : Int
  request_id : String
deriving DecidableEq

/-- The singleton command_buffer row. -/
structure CommandSlot where
  command : String
  created_at : Int
deriving DecidableEq

/-- One row of the drone_logs table. -/
structure LogEntry where
  id : Nat
  message : Json
  created_at : Int
deriving DecidableEq

/-- The sqlite database state. drone_logs is kept in insertion order, which
coincides with ascending id order because ids come from AUTOINCREMENT;
next_log_id is the autoincrement counter. -/
structure DB where
  latest_target : Option PositionRecord
  command_buffer : CommandSlot
  drone_logs : List LogEntry
  next_log_id : Nat
deriving DecidableEq

/-- The database produced by init_db on first start. -/
def initDB : DB :=
  { latest_target := none
    command_buffer := { command := "NONE", created_at := 0 }
    drone_logs := []
    next_log_id := 1 }

/-- Environment-derived configuration; the defaults are APP_TOKEN=CHANGE_ME,
MAX_AGE_SECONDS=60 and MAX_ACCURACY_M=50. -/
structure Config where
  APP_TOKEN : String
  MAX_AGE_SECONDS : Int
  MAX_ACCURACY_M : PyFloat

/-- The configuration when no environment variable overrides a default. -/
def defaultConfig : Config :=
  { APP_TOKEN := "CHANGE_ME", MAX_AGE_SECONDS := 60, MAX_ACCURACY_M := PyFloat.finite 50 }

/-- Keep the n most recent elements of a list held in ascending id order:
the effect of DELETE WHERE id NOT IN (SELECT id ORDER BY id DESC LIMIT n). -/
def takeLast (n : Nat) (l : List α) : List α :=
  (l.reverse.take n).reverse

/-- add_log_entry: insert a row carrying the next autoincrement id and the
current time, then delete every row except the 50 with greatest ids. -/
def add_log_entry (message : Json) (now : Int) (db : DB) : DB :=
  { db with
    drone_logs := takeLast 50 (db.drone_logs ++ [⟨db.next_log_id, message, now⟩])
    next_log_id := db.next_log_id + 1 }

/-- get_recent_logs: the limit most recent rows, newest first, projected to
the message and created_at columns. -/
def get_recent_logs (limit : Nat) (db : DB) : List (Json × Int) :=
  (db.drone_logs.reverse.take limit).map (fun e => (e.message, e.created_at))

/-- set_command: overwrite the singleton command row. -/
def set_command (cmd : String) (now : Int) (db : DB) : DB :=
  { db with command_buffer := { command := cmd, created_at := now } }

/-- get_current_command: the stored command when it is not NONE and is less
than 10 seconds old, else Python None. -/
def get_current_command (now : Int) (db : DB) : Option String :=
  if db.command_buffer.command ≠ "NONE" ∧ now - db.command_buffer.created_at < 10 then
    some db.command_buffer.command
  else none

/-- set_latest_target: overwrite the singleton target row. -/
def set_latest_target (lat lon accuracy : PyFloat) (request_id : String) (now : Int)
    (db : DB) : DB :=
  { db with latest_target := some ⟨lat, lon, accuracy, now, request_id⟩ }

/-- get_latest_target: None while lat is still NULL (no write ever ran). -/
def get_latest_target (db : DB) : Option PositionRecord :=
  db.latest_target

/-- An inbound HTTP request: the X-APP-TOKEN header (the empty string when
the header is absent, matching headers.get with a default) and the parsed
JSON object body (empty when the body is missing or malformed, matching
get_json silent mode followed by the or-empty-dict fallback). -/
structure Request where
  token : String
  body : List (String × Json)

/-- The JSON responses the handlers produce, tagged by shape; the paired
HTTP status codes are noted per constructor. -/
inductive Resp where
  | unauthorized                                            -- 401 unauthorized
  | invalidData                                             -- 400 invalid data
  | gpsPoor (acc : PyFloat)                                 -- 400 gps poor, carries acc
  | okEmpty                                                 -- 200 ok
  | noTarget                                                -- 404 no target
  | targetStale                                             -- 410 target stale
  | okTarget (target : PositionRecord) (age_seconds : Int)  -- 200 record plus age
  | invalidCommand                                          -- 400 invalid command
  | okCommand (command : Option String)                     -- 200, null on none
  | okLogs (logs : List (Json × Int))                       -- 200 log feed
deriving DecidableEq

/-- POST /go: token check, float conversion of lat, lon and accuracy (any
conversion failure yields invalid data), the accuracy ceiling check, then
the overwrite of the target row plus one audit log entry. -/
def go (cfg : Config) (req : Request) (now : Int) (db : DB) : DB × Resp :=
  if req.token ≠ cfg.APP_TOKEN then (db, Resp.unauthorized)
  else
    match pyFloat (jsonGet req.body "lat"), pyFloat (jsonGet req.body "lon"),
          pyFloat (jsonGet req.body "accuracy") with
    | some lat, some lon, some acc =>
      let rid := pyStr (jsonGet req.body "request_id")
      if pyGt acc cfg.MAX_ACCURACY_M then (db, Resp.gpsPoor acc)
      else
        let db1 := set_latest_target lat lon acc rid now db
        let db2 := add_log_entry
          (Json.str ("New Target Received: " ++ pyFloatRepr lat ++ ", " ++ pyFloatRepr lon))
          now db1
        (db2, Resp.okEmpty)
    | _, _, _ => (db, Resp.invalidData)

/-- GET /latest: token check, then no target / target stale / the record
together with its age in seconds. -/
def latest (cfg : Config) (req : Request) (now : Int) (db : DB) : DB × Resp :=
  if req.token ≠ cfg.APP_TOKEN then (db, Resp.unauthorized)
  else
    match get_latest_target db with
    | none => (db, Resp.noTarget)
    | some tgt =>
      if now - tgt.created_at > cfg.MAX_AGE_SECONDS then (db, Resp.targetStale)
      else (db, Resp.okTarget tgt (now - tgt.created_at))

/-- POST /drone/cmd: token check, membership of the command in the fixed
allowed set, then unconditional overwrite of the command slot plus one
audit log entry. -/
def post_command (cfg : Config) (req : Request) (now : Int) (db : DB) : DB × Resp :=
  if req.token ≠ cfg.APP_TOKEN then (db, Resp.unauthorized)
  else
    match jsonGet req.body "command" with
    | Json.str s =>
      if s = "HOVER" ∨ s = "RTH" ∨ s = "LAND" then
        let db1 := set_command s now db
        let db2 := add_log_entry (Json.str ("Command Sent: " ++ s)) now db1
        (db2, Resp.okCommand (some s))
      else (db, Resp.invalidCommand)
    | _ => (db, Resp.invalidCommand)

/-- GET /drone/cmd: token check, then the current command (null when the
slot holds NONE, is at least 10 seconds old, or is falsy). -/
def get_command (cfg : Config) (req : Request) (now : Int) (db : DB) : DB × Resp :=
  if req.token ≠ cfg.APP_TOKEN then (db, Resp.unauthorized)
  else
    match get_current_command now db with
    | some s => if s = "" then (db, Resp.okCommand none) else (db, Resp.okCommand (some s))
    | none => (db, Resp.okCommand none)

/-- POST /drone/status: token check, then append the message when it is
truthy; the response reports success either way. -/
def post_status (cfg : Config) (req : Request) (now : Int) (db : DB) : DB × Resp :=
  if req.token ≠ cfg.APP_TOKEN then (db, Resp.unauthorized)
  else
    let msg := jsonGet req.body "message"
    if pyTruthy msg then (add_log_entry msg now db, Resp.okEmpty)
    else (db, Resp.okEmpty)

/-- GET /drone/status: returns the 20 most recent log rows; despite the
adjacent comment in the source, no token check is performed before the
read. -/
def get_status (_cfg : Config) (_req : Request) (db : DB) : DB × Resp :=
  (db, Resp.okLogs (get_recent_logs 20 db))

/-! Helper lemmas about takeLast, the eviction step shared by the log
theorems. -/

theorem takeLast_length_le (n : Nat) (l : List α) : (takeLast n l).length ≤ n := by
  simp [takeLast]

theorem takeLast_of_length_le {n : Nat} {l : List α} (h : l.length ≤ n) : takeLast n l = l := by
  unfold takeLast
  rw [List.take_of_length_le (by simpa using h), List.reverse_reverse]

theorem takeLast_cons_of_length_lt {n : Nat} {a : α} {l : List α} (h : l.length < n) :
    takeLast n (a :: l) = a :: l :=
  takeLast_of_length_le (by simpa using h)

theorem takeLast_cons_of_le_length {n : Nat} {a : α} {l : List α} (h : n ≤ l.length) :
    takeLast n (a :: l) = takeLast n l := by
  unfold takeLast
  rw [List.reverse_cons, List.take_append_of_le_length (by simpa using h)]

theorem takeLast_append_of_le_length {n : Nat} {l1 l2 : List α} (h : n ≤ l2.length) :
    takeLast n (l1 ++ l2) = takeLast n l2 := by
  unfold takeLast
  rw [List.reverse_append, List.take_append_of_le_length (by simpa using h)]

theorem takeLast_idem_append (n : Nat) (l1 l2 : List α) :
    takeLast n (takeLast n l1 ++ l2) = takeLast n (l1 ++ l2) := by
  unfold takeLast
  rw [List.reverse_append, List.reverse_reverse, List.reverse_append,
    List.take_append_eq_append_take, List.take_append_eq_append_take, List.take_take,
    min_eq_left (Nat.sub_le n l2.reverse.length)]

theorem mem_takeLast {n : Nat} {a : α} {l : List α} (h : a ∈ takeLast n l) : a ∈ l := by
  unfold takeLast at h
  rw [List.mem_reverse] at h
  exact List.mem_reverse.mp (List.mem_of_mem_take h)

theorem map_takeLast (f : α → β) (n : Nat) (l : List α) :
    (takeLast n l).map f = takeLast n (l.map f) := by
  simp [takeLast, List.map_take]

theorem takeLast_reverse_eq (n : Nat) (l : List α) :
    (takeLast n l).reverse = l.reverse.take n := by
  simp [takeLast]

/-- The log rows created by a run of appends with consecutive autoincrement
ids starting at startId, all written at the same time. -/
def enumLogs (startId : Nat) (now : Int) : List Json → List LogEntry
  | [] => []
  | m :: ms => ⟨startId, m, now⟩ :: enumLogs (startId + 1) now ms

theorem enumLogs_length (startId : Nat) (now : Int) (msgs : List Json) :
    (enumLogs startId now msgs).length = msgs.length := by
  induction msgs generalizing startId with
  | nil => rfl
  | cons m ms ih => simp [enumLogs, ih]

theorem enumLogs_map_pair (startId : Nat) (now : Int) (msgs : List Json) :
    (enumLogs startId now msgs).map (fun e => (e.message, e.created_at)) =
      msgs.map (fun m => (m, now)) := by
  induction msgs generalizing startId with
  | nil => rfl
  | cons m ms ih => simp [enumLogs, ih]

theorem enumLogs_map_message (startId : Nat) (now : Int) (msgs : List Json) :
    (enumLogs startId now msgs).map (fun e => e.message) = msgs := by
  induction msgs generalizing startId with
  | nil => rfl
  | cons m ms ih => simp [enumLogs, ih]

/-- A run of appendStatus requests, one per message, all with a valid token
and all at the same time. -/
def appendAll (cfg : Config) (msgs : List Json) (now : Int) (db : DB) : DB :=
  msgs.foldl
    (fun d m => (post_status cfg { token := cfg.APP_TOKEN, body := [("message", m)] } now d).1)
    db

theorem post_status_step (cfg : Config) (m : Json) (now : Int) (d : DB)
    (ht : pyTruthy m = true) :
    (post_status cfg { token := cfg.APP_TOKEN, body := [("message", m)] } now d).1 =
      add_log_entry m now d := by
  simp [post_status, jsonGet, ht]

theorem appendAll_drone_logs (cfg : Config) (now : Int) :
    ∀ (msgs : List Json) (db : DB), (∀ m ∈ msgs, pyTruthy m = true) →
      db.drone_logs.length ≤ 50 →
      (appendAll cfg msgs now db).drone_logs =
        takeLast 50 (db.drone_logs ++ enumLogs db.next_log_id now msgs) := by
  intro msgs
  induction msgs with
  | nil =>
    intro db _ hlen
    simp only [appendAll, List.foldl_nil, enumLogs, List.append_nil]
    exact (takeLast_of_length_le hlen).symm
  | cons m ms ih =>
    intro db htr hlen
    have hstep : appendAll cfg (m :: ms) now db =
        appendAll cfg ms now (add_log_entry m now db) := by
      simp only [appendAll, List.foldl_cons]
      rw [post_status_step cfg m now db (htr m (List.mem_cons_self m ms))]
    rw [hstep, ih (add_log_entry m now db)
      (fun x hx => htr x (List.mem_cons_of_mem m hx))
      (by simpa [add_log_entry] using takeLast_length_le 50 _)]
    simp only [add_log_entry]
    rw [takeLast_idem_append, List.append_assoc]
    rfl

/-- C2: with a valid token, readPosition returns no target when no position
was ever written; otherwise, with age = now - createdAt, it returns target
stale exactly when the age exceeds MAX_AGE_SECONDS, the database (hence the
stored record) being returned unchanged in every branch, and returns the
stored record together with its age when the age does not exceed the
maximum. -/
theorem C2_read_position (cfg : Config) (req : Request) (now : Int) (db : DB)
    (htok : req.token = cfg.APP_TOKEN) :
    (db.latest_target = none → latest cfg req now db = (db, Resp.noTarget)) ∧
    (∀ tgt : PositionRecord, db.latest_target = some tgt →
      (now - tgt.created_at > cfg.MAX_AGE_SECONDS →
        latest cfg req now db = (db, Resp.targetStale)) ∧
      (¬ now - tgt.created_at > cfg.MAX_AGE_SECONDS →
        latest cfg req now db = (db, Resp.okTarget tgt (now - tgt.created_at)))) := by
  refine ⟨fun h => ?_, fun tgt h => ⟨fun hst => ?_, fun hfr => ?_⟩⟩
  · simp [latest, get_latest_target, htok, h]
  · simp [latest, get_latest_target, htok, h, hst]
  · simp [latest, get_latest_target, htok, h, hfr]

/-- Concrete instance of C2_read_position: an unwritten database yields no
target, and a record written 5 seconds ago is returned with age 5 while one
written 65 seconds ago is stale under the default 60-second maximum. -/
theorem C2_read_position_witness :
    latest defaultConfig { token := "CHANGE_ME", body := [] } 5 initDB = (initDB, Resp.noTarget) ∧
    latest defaultConfig { token := "CHANGE_ME", body := [] } 70
        { initDB with latest_target := some ⟨PyFloat.finite 47, PyFloat.finite 8, PyFloat.finite 5, 65, "r1"⟩ } =
      ({ initDB with latest_target := some ⟨PyFloat.finite 47, PyFloat.finite 8, PyFloat.finite 5, 65, "r1"⟩ },
        Resp.okTarget ⟨PyFloat.finite 47, PyFloat.finite 8, PyFloat.finite 5, 65, "r1"⟩ 5) ∧
    latest defaultConfig { token := "CHANGE_ME", body := [] } 70
        { initDB with latest_target := some ⟨PyFloat.finite 47, PyFloat.finite 8, PyFloat.finite 5, 5, "r1"⟩ } =
      ({ initDB with latest_target := some ⟨PyFloat.finite 47, PyFloat.finite 8, PyFloat.finite 5, 5, "r1"⟩ },
        Resp.targetStale) := by
  refine ⟨(C2_read_position _ _ _ _ rfl).1 rfl, ?_, ?_⟩
  · exact ((C2_read_position _ _ _ _ rfl).2 _ rfl).2 (by decide)
  · exact ((C2_read_position _ _ _ _ rfl).2 _ rfl).1 (by decide)

/-- C7: with a valid token, writeCommand with a command outside the set
HOVER, RTH, LAND fails with invalid command and leaves the whole database,
in particular the stored command slot, unchanged; for a command in the set
the slot is unconditionally overwritten with that command and the current
timestamp and success is reported. -/
theorem C7_write_command (cfg : Config) (req : Request) (now : Int) (db : DB)
    (htok : req.token = cfg.APP_TOKEN) :
    ((∀ s : String, jsonGet req.body "command" = Json.str s →
        ¬ (s = "HOVER" ∨ s = "RTH" ∨ s = "LAND")) →
      post_command cfg req now db = (db, Resp.invalidCommand)) ∧
    (∀ s : String, jsonGet req.body "command" = Json.str s →
      (s = "HOVER" ∨ s = "RTH" ∨ s = "LAND") →
      (post_command cfg req now db).1.command_buffer = ⟨s, now⟩ ∧
      (post_command cfg req now db).2 = Resp.okCommand (some s)) := by
  constructor
  · intro hbad
    unfold post_command
    rcases hcmd : jsonGet req.body "command" with _ | b | q | s
    · simp [htok]
    · simp [htok]
    · simp [htok]
    · simp [htok, hbad s hcmd]
  · intro s hcmd hmem
    unfold post_command
    rw [hcmd]
    simp [htok, hmem, set_command, add_log_entry]

/-- Concrete instance of C7_write_command: SPIN is rejected leaving the
database untouched, and RTH at time 7 overwrites the slot. -/
theorem C7_write_command_witness :
    post_command defaultConfig
        { token := "CHANGE_ME", body := [("command", Json.str "SPIN")] } 7 initDB =
      (initDB, Resp.invalidCommand) ∧
    (post_command defaultConfig
        { token := "CHANGE_ME", body := [("command", Json.str "RTH")] } 7 initDB).1.command_buffer =
      ⟨"RTH", 7⟩ ∧
    (post_command defaultConfig
        { token := "CHANGE_ME", body := [("command", Json.str "RTH")] } 7 initDB).2 =
      Resp.okCommand (some "RTH") := by
  refine ⟨(C7_write_command _ _ _ _ rfl).1 ?_, (C7_write_command _ _ _ _ rfl).2 "RTH" rfl ?_⟩
  · intro s hs
    have hs2 : Json.str "SPIN" = Json.str s := hs
    cases hs2
    decide
  · exact Or.inr (Or.inl rfl)

/-- C8: with a valid token, a write whose lat, lon and accuracy fields are
JSON numbers with accuracy passing the ceiling check succeeds, and an
immediate read (valid token, same time) returns exactly the written lat,
lon, accuracy and request_id, the stored timestamp equalling the write time
(so the reported age is 0). -/
theorem C8_write_then_read (cfg : Config) (req req2 : Request) (now : Int) (db : DB)
    (htok : req.token = cfg.APP_TOKEN) (htok2 : req2.token = cfg.APP_TOKEN)
    (la lo ac : ℚ) (rid : String)
    (hlat : jsonGet req.body "lat" = Json.num la)
    (hlon : jsonGet req.body "lon" = Json.num lo)
    (hacc : jsonGet req.body "accuracy" = Json.num ac)
    (hrid : jsonGet req.body "request_id" = Json.str rid)
    (hceil : pyGt (PyFloat.finite ac) cfg.MAX_ACCURACY_M = false)
    (hage : 0 ≤ cfg.MAX_AGE_SECONDS) :
    (go cfg req now db).2 = Resp.okEmpty ∧
    (go cfg req now db).1.latest_target =
      some ⟨PyFloat.finite la, PyFloat.finite lo, PyFloat.finite ac, now, rid⟩ ∧
    latest cfg req2 now (go cfg req now db).1 =
      ((go cfg req now db).1,
        Resp.okTarget ⟨PyFloat.finite la, PyFloat.finite lo, PyFloat.finite ac, now, rid⟩ 0) := by
  have hgo : (go cfg req now db).1.latest_target =
      some ⟨PyFloat.finite la, PyFloat.finite lo, PyFloat.finite ac, now, rid⟩ ∧
      (go cfg req now db).2 = Resp.okEmpty := by
    unfold go
    rw [hlat, hlon, hacc, hrid]
    simp [htok, pyFloat, pyStr, hceil, set_latest_target, add_log_entry]
  refine ⟨hgo.2, hgo.1, ?_⟩
  unfold latest get_latest_target
  rw [hgo.1]
  simp [htok2, sub_self, not_lt.mpr hage]

/-- Concrete instance of C8_write_then_read: writing (47, 8, accuracy 5,
id r1) at time 100 and reading immediately returns the written record with
age 0. -/
theorem C8_write_then_read_witness :
    (go defaultConfig
        { token := "CHANGE_ME",
          body := [("lat", Json.num 47), ("lon", Json.num 8),
                   ("accuracy", Json.num 5), ("request_id", Json.str "r1")] } 100 initDB).2 =
      Resp.okEmpty ∧
    latest defaultConfig { token := "CHANGE_ME", body := [] } 100
        (go defaultConfig
          { token := "CHANGE_ME",
            body := [("lat", Json.num 47), ("lon", Json.num 8),
                     ("accuracy", Json.num 5), ("request_id", Json.str "r1")] } 100 initDB).1 =
      ((go defaultConfig
          { token := "CHANGE_ME",
            body := [("lat", Json.num 47), ("lon", Json.num 8),
                     ("accuracy", Json.num 5), ("request_id", Json.str "r1")] } 100 initDB).1,
        Resp.okTarget ⟨PyFloat.finite 47, PyFloat.finite 8, PyFloat.finite 5, 100, "r1"⟩ 0) := by
  have h := C8_write_then_read defaultConfig
      { token := "CHANGE_ME",
        body := [("lat", Json.num 47), ("lon", Json.num 8),
                 ("accuracy", Json.num 5), ("request_id", Json.str "r1")] }
      { token := "CHANGE_ME", body := [] } 100 initDB rfl rfl 47 8 5 "r1" rfl rfl rfl rfl
      (by decide) (by decide)
  exact ⟨h.1, h.2.2⟩

/-- C1 as stated fails on the code: go contains no latitude/longitude range
check, so a write with latitude 1000 and valid accuracy succeeds and stores
the out-of-range coordinate instead of failing. -/
theorem C1_counterexample :
    (go defaultConfig
        { token := "CHANGE_ME",
          body := [("lat", Json.num 1000), ("lon", Json.num 0),
                   ("accuracy", Json.num 5), ("request_id", Json.str "r1")] } 0 initDB).2 =
      Resp.okEmpty ∧
    (go defaultConfig
        { token := "CHANGE_ME",
          body := [("lat", Json.num 1000), ("lon", Json.num 0),
                   ("accuracy", Json.num 5), ("request_id", Json.str "r1")] } 0 initDB).1.latest_target =
      some ⟨PyFloat.finite 1000, PyFloat.finite 0, PyFloat.finite 5, 0, "r1"⟩ := by
  constructor
  · rfl
  · rfl

/-- C1 amended: writePosition performs no latitude/longitude range
validation; any float-convertible lat and lon, even outside [-90, 90] and
[-180, 180], are accepted and stored whenever the accuracy passes the
ceiling check. -/
theorem C1_no_range_check (cfg : Config) (req : Request) (now : Int) (db : DB)
    (htok : req.token = cfg.APP_TOKEN) (la lo ac : ℚ) (rid : String)
    (_hout : 90 < |la| ∨ 180 < |lo|)
    (hlat : jsonGet req.body "lat" = Json.num la)
    (hlon : jsonGet req.body "lon" = Json.num lo)
    (hacc : jsonGet req.body "accuracy" = Json.num ac)
    (hrid : jsonGet req.body "request_id" = Json.str rid)
    (hceil : pyGt (PyFloat.finite ac) cfg.MAX_ACCURACY_M = false) :
    (go cfg req now db).2 = Resp.okEmpty ∧
    (go cfg req now db).1.latest_target =
      some ⟨PyFloat.finite la, PyFloat.finite lo, PyFloat.finite ac, now, rid⟩ := by
  unfold go
  rw [hlat, hlon, hacc, hrid]
  simp [htok, pyFloat, pyStr, hceil, set_latest_target, add_log_entry]

/-- Concrete instance of C1_no_range_check at latitude 1000. -/
theorem C1_no_range_check_witness :
    (go defaultConfig
        { token := "CHANGE_ME",
          body := [("lat", Json.num 1000), ("lon", Json.num 0),
                   ("accuracy", Json.num 5), ("request_id", Json.str "r1")] } 0 initDB).2 =
      Resp.okEmpty ∧
    (go defaultConfig
        { token := "CHANGE_ME",
          body := [("lat", Json.num 1000), ("lon", Json.num 0),
                   ("accuracy", Json.num 5), ("request_id", Json.str "r1")] } 0 initDB).1.latest_target =
      some ⟨PyFloat.finite 1000, PyFloat.finite 0, PyFloat.finite 5, 0, "r1"⟩ :=
  C1_no_range_check defaultConfig _ 0 initDB rfl 1000 0 5 "r1"
    (Or.inl (by norm_num)) rfl rfl rfl rfl (by decide)

/-- C3 as stated fails on the code at an age of exactly 10 seconds: an RTH
command written at time 0 and read at time 10 yields no command pending,
although the stored command is not NONE and its age does not exceed the
10-second window. -/
theorem C3_counterexample :
    get_command defaultConfig { token := "CHANGE_ME", body := [] } 10
        { initDB with command_buffer := ⟨"RTH", 0⟩ } =
      ({ initDB with command_buffer := ⟨"RTH", 0⟩ }, Resp.okCommand none) ∧
    ¬ (("RTH" : String) = "NONE" ∨ (10 : Int) - 0 > 10) := by
  constructor
  · rfl
  · decide

/-- C3 amended: with a valid token and a slot whose stored command is not the
empty string (the only commands the writer ever stores are NONE, HOVER, RTH
and LAND), readCommand returns no command pending exactly when the stored
command is NONE or its age is at least the 10-second window (freshness is
age strictly below 10); otherwise it returns the stored command; the read
never mutates the database, and any two reads at fresh ages return the same
response. -/
theorem C3_read_command (cfg : Config) (req : Request) (now : Int) (db : DB)
    (htok : req.token = cfg.APP_TOKEN)
    (hne : db.command_buffer.command ≠ "") :
    (get_command cfg req now db).1 = db ∧
    ((get_command cfg req now db).2 = Resp.okCommand none ↔
      db.command_buffer.command = "NONE" ∨ 10 ≤ now - db.command_buffer.created_at) ∧
    (db.command_buffer.command ≠ "NONE" → now - db.command_buffer.created_at < 10 →
      (get_command cfg req now db).2 = Resp.okCommand (some db.command_buffer.command)) ∧
    (∀ now2 : Int, req.token = cfg.APP_TOKEN →
      now - db.command_buffer.created_at < 10 → now2 - db.command_buffer.created_at < 10 →
      (get_command cfg req now db).2 = (get_command cfg req now2 db).2) := by
  by_cases hnone : db.command_buffer.command = "NONE"
  · refine ⟨?_, ?_, ?_, ?_⟩
    · simp [get_command, get_current_command, htok, hnone]
    · simp [get_command, get_current_command, htok, hnone]
    · intro h; exact absurd hnone h
    · intro now2 _ _ _
      simp [get_command, get_current_command, htok, hnone]
  · by_cases hfr : now - db.command_buffer.created_at < 10
    · refine ⟨?_, ?_, ?_, ?_⟩
      · simp [get_command, get_current_command, htok, hnone, hfr, hne]
      · simp [get_command, get_current_command, htok, hnone, hfr, hne, not_lt.mp]
      · intro _ _
        simp [get_command, get_current_command, htok, hnone, hfr, hne]
      · intro now2 _ _ hfr2
        simp [get_command, get_current_command, htok, hnone, hfr, hfr2, hne]
    · refine ⟨?_, ?_, ?_, ?_⟩
      · simp [get_command, get_current_command, htok, hnone, hfr]
      · simp [get_command, get_current_command, htok, hnone, hfr]
        exact not_lt.mp hfr
      · intro _ h; exact absurd h hfr
      · intro now2 _ h _; exact absurd h hfr

/-- Concrete instance of C3_read_command: an RTH command written at time 0
and read at time 5 is reported, at time 10 it is not. -/
theorem C3_read_command_witness :
    (get_command defaultConfig { token := "CHANGE_ME", body := [] } 5
        { initDB with command_buffer := ⟨"RTH", 0⟩ }).2 = Resp.okCommand (some "RTH") ∧
    ((get_command defaultConfig { token := "CHANGE_ME", body := [] } 10
        { initDB with command_buffer := ⟨"RTH", 0⟩ }).2 = Resp.okCommand none ↔
      ("RTH" : String) = "NONE" ∨ (10 : Int) ≤ 10 - 0) := by
  constructor
  · exact (C3_read_command defaultConfig _ 5 _ rfl (by decide)).2.2.1 (by decide) (by decide)
  · exact (C3_read_command defaultConfig _ 10 _ rfl (by decide)).2.1

/-- The entry just inserted is the last row surviving the eviction step. -/
theorem getLast?_takeLast_concat (n : Nat) (xs : List α) (e : α) :
    (takeLast (n + 1) (xs ++ [e])).getLast? = some e := by
  unfold takeLast
  rw [List.reverse_append, List.reverse_singleton, List.singleton_append,
    List.take_succ_cons, List.reverse_cons, List.getLast?_concat]

/-- C5 as stated fails on the code: a non-numeric accuracy with valid
coordinates is rejected by the float conversion step with the generic
invalid data error, not with the accuracy error. -/
theorem C5_counterexample :
    go defaultConfig
        { token := "CHANGE_ME",
          body := [("lat", Json.num 47), ("lon", Json.num 8),
                   ("accuracy", Json.str "abc"), ("request_id", Json.str "r1")] } 0 initDB =
      (initDB, Resp.invalidData) := by
  rfl

/-- C5 amended: with a valid token and float-convertible coordinates, an
accuracy that fails float conversion yields the invalid data error; an
accuracy converting to a value strictly above MAX_ACCURACY_M yields the
accuracy error carrying the offending value; an accuracy exactly equal to a
finite threshold is accepted. -/
theorem C5_accuracy_check (cfg : Config) (req : Request) (now : Int) (db : DB)
    (htok : req.token = cfg.APP_TOKEN) (la lo : PyFloat)
    (hlat : pyFloat (jsonGet req.body "lat") = some la)
    (hlon : pyFloat (jsonGet req.body "lon") = some lo) :
    (pyFloat (jsonGet req.body "accuracy") = none →
      go cfg req now db = (db, Resp.invalidData)) ∧
    (∀ acc : PyFloat, pyFloat (jsonGet req.body "accuracy") = some acc →
      pyGt acc cfg.MAX_ACCURACY_M = true →
      go cfg req now db = (db, Resp.gpsPoor acc)) ∧
    (∀ q : ℚ, cfg.MAX_ACCURACY_M = PyFloat.finite q →
      pyFloat (jsonGet req.body "accuracy") = some (PyFloat.finite q) →
      (go cfg req now db).2 = Resp.okEmpty) := by
  refine ⟨fun hnone => ?_, fun acc hacc hgt => ?_, fun q hq hacc => ?_⟩
  · unfold go
    rw [hlat, hlon, hnone]
    simp [htok]
  · unfold go
    rw [hlat, hlon, hacc]
    simp [htok, hgt]
  · unfold go
    rw [hlat, hlon, hacc, hq]
    simp [htok, pyGt, lt_irrefl, set_latest_target, add_log_entry]

/-- Concrete instances of C5_accuracy_check: an unparsable accuracy gives
invalid data, accuracy 51 against the default threshold 50 gives the
accuracy error carrying 51, and accuracy exactly 50 is accepted. -/
theorem C5_accuracy_check_witness :
    go defaultConfig
        { token := "CHANGE_ME",
          body := [("lat", Json.num 47), ("lon", Json.num 8),
                   ("accuracy", Json.str "xyz"), ("request_id", Json.str "r1")] } 0 initDB =
      (initDB, Resp.invalidData) ∧
    go defaultConfig
        { token := "CHANGE_ME",
          body := [("lat", Json.num 47), ("lon", Json.num 8),
                   ("accuracy", Json.num 51), ("request_id", Json.str "r1")] } 0 initDB =
      (initDB, Resp.gpsPoor (PyFloat.finite 51)) ∧
    (go defaultConfig
        { token := "CHANGE_ME",
          body := [("lat", Json.num 47), ("lon", Json.num 8),
                   ("accuracy", Json.num 50), ("request_id", Json.str "r1")] } 0 initDB).2 =
      Resp.okEmpty := by
  refine ⟨(C5_accuracy_check defaultConfig
      { token := "CHANGE_ME",
        body := [("lat", Json.num 47), ("lon", Json.num 8),
                 ("accuracy", Json.str "xyz"), ("request_id", Json.str "r1")] } 0 initDB rfl
      (PyFloat.finite 47) (PyFloat.finite 8) rfl rfl).1 rfl,
    (C5_accuracy_check defaultConfig
      { token := "CHANGE_ME",
        body := [("lat", Json.num 47), ("lon", Json.num 8),
                 ("accuracy", Json.num 51), ("request_id", Json.str "r1")] } 0 initDB rfl
      (PyFloat.finite 47) (PyFloat.finite 8) rfl rfl).2.1 (PyFloat.finite 51) rfl (by decide),
    (C5_accuracy_check defaultConfig
      { token := "CHANGE_ME",
        body := [("lat", Json.num 47), ("lon", Json.num 8),
                 ("accuracy", Json.num 50), ("request_id", Json.str "r1")] } 0 initDB rfl
      (PyFloat.finite 47) (PyFloat.finite 8) rfl rfl).2.2 50 rfl rfl⟩

/-- C6: the code contradicts the claim for readStatus: with an absent token
(empty string, which differs from the configured secret) the status read is
still performed and the log feed returned, because get_status contains no
token check. -/
theorem C6_status_read_without_auth :
    get_status defaultConfig { token := "", body := [] }
        (add_log_entry (Json.str "m") 3 initDB) =
      (add_log_entry (Json.str "m") 3 initDB, Resp.okLogs [(Json.str "m", 3)]) ∧
    ("" : String) ≠ defaultConfig.APP_TOKEN := by
  exact ⟨rfl, by decide⟩

/-- C9 as stated fails on the code: a present empty-string message is falsy
in Python, so the append is skipped and the database is returned unchanged
while success is still reported. -/
theorem C9_counterexample :
    post_status defaultConfig
        { token := "CHANGE_ME", body := [("message", Json.str "")] } 0 initDB =
      (initDB, Resp.okEmpty) ∧
    jsonGet [("message", Json.str "")] "message" = Json.str "" := by
  exact ⟨rfl, rfl⟩

/-- C9 amended: with a valid token, appendStatus appends one entry carrying
the fresh autoincrement id and the current timestamp exactly when the
message field is truthy (in particular any non-empty string), incrementing
the id counter; when the message is absent or falsy (Json null, false, 0 or
the empty string) it is a no-op that still reports success. -/
theorem C9_append_status (cfg : Config) (req : Request) (now : Int) (db : DB)
    (htok : req.token = cfg.APP_TOKEN) :
    (pyTruthy (jsonGet req.body "message") = true →
      post_status cfg req now db =
        (add_log_entry (jsonGet req.body "message") now db, Resp.okEmpty) ∧
      (add_log_entry (jsonGet req.body "message") now db).drone_logs.getLast? =
        some ⟨db.next_log_id, jsonGet req.body "message", now⟩ ∧
      (add_log_entry (jsonGet req.body "message") now db).next_log_id = db.next_log_id + 1) ∧
    (pyTruthy (jsonGet req.body "message") = false →
      post_status cfg req now db = (db, Resp.okEmpty)) := by
  constructor
  · intro ht
    refine ⟨by simp [post_status, htok, ht], ?_, rfl⟩
    exact getLast?_takeLast_concat 49 db.drone_logs _
  · intro hf
    simp [post_status, htok, hf]

/-- Concrete instances of C9_append_status: the message hello is appended
with id 1 at time 2, and an absent message leaves the database unchanged. -/
theorem C9_append_status_witness :
    post_status defaultConfig
        { token := "CHANGE_ME", body := [("message", Json.str "hello")] } 2 initDB =
      (add_log_entry (Json.str "hello") 2 initDB, Resp.okEmpty) ∧
    (add_log_entry (Json.str "hello") 2 initDB).drone_logs.getLast? =
      some ⟨1, Json.str "hello", 2⟩ ∧
    post_status defaultConfig { token := "CHANGE_ME", body := [] } 2 initDB =
      (initDB, Resp.okEmpty) := by
  refine ⟨((C9_append_status defaultConfig
      { token := "CHANGE_ME", body := [("message", Json.str "hello")] } 2 initDB rfl).1 rfl).1,
    ((C9_append_status defaultConfig
      { token := "CHANGE_ME", body := [("message", Json.str "hello")] } 2 initDB rfl).1 rfl).2.1,
    (C9_append_status defaultConfig
      { token := "CHANGE_ME", body := [] } 2 initDB rfl).2 rfl⟩

/-- Evaluation of a go call that passes conversion and the ceiling check. -/
theorem go_success_eval (cfg : Config) (req : Request) (now : Int) (db : DB)
    (htok : req.token = cfg.APP_TOKEN) (la lo ac : PyFloat)
    (hlat : pyFloat (jsonGet req.body "lat") = some la)
    (hlon : pyFloat (jsonGet req.body "lon") = some lo)
    (hacc : pyFloat (jsonGet req.body "accuracy") = some ac)
    (hceil : pyGt ac cfg.MAX_ACCURACY_M = false) :
    (go cfg req now db).2 = Resp.okEmpty ∧
    (go cfg req now db).1.latest_target =
      some ⟨la, lo, ac, now, pyStr (jsonGet req.body "request_id")⟩ := by
  unfold go
  rw [hlat, hlon, hacc]
  simp [htok, hceil, set_latest_target, add_log_entry]

/-- C10: float conversion also accepts numeric strings and the special
values nan and infinity, so a write whose payload carries them as strings
succeeds and stores the converted floats; a nan accuracy passes the ceiling
check because every comparison with nan is false. -/
theorem C10_float_conversion :
    pyFloat (Json.str "47.0") = some (PyFloat.finite 47) ∧
    pyFloat (Json.str "nan") = some PyFloat.nan ∧
    pyFloat (Json.str "-inf") = some PyFloat.ninf ∧
    pyGt PyFloat.nan defaultConfig.MAX_ACCURACY_M = false ∧
    (go defaultConfig
        { token := "CHANGE_ME",
          body := [("lat", Json.str "47.0"), ("lon", Json.str "-inf"),
                   ("accuracy", Json.str "nan"), ("request_id", Json.str "r2")] } 0 initDB).2 =
      Resp.okEmpty ∧
    (go defaultConfig
        { token := "CHANGE_ME",
          body := [("lat", Json.str "47.0"), ("lon", Json.str "-inf"),
                   ("accuracy", Json.str "nan"), ("request_id", Json.str "r2")] } 0 initDB).1.latest_target =
      some ⟨PyFloat.finite 47, PyFloat.ninf, PyFloat.nan, 0, "r2"⟩ := by
  have h47 : pyFloat (Json.str "47.0") = some (PyFloat.finite 47) := by
    simp +decide [pyFloat, pyFloatOfString, parseSign, parseDecimal, takeDigits, digitsToNat,
      isPySpace, List.dropWhile, List.takeWhile]
  have hgo := go_success_eval defaultConfig
      { token := "CHANGE_ME",
        body := [("lat", Json.str "47.0"), ("lon", Json.str "-inf"),
                 ("accuracy", Json.str "nan"), ("request_id", Json.str "r2")] } 0 initDB rfl
      (PyFloat.finite 47) PyFloat.ninf PyFloat.nan h47 rfl rfl rfl
  exact ⟨h47, rfl, rfl, rfl, hgo.1, hgo.2⟩

/-- On a list whose ids strictly increase along the list, the rows the
eviction step keeps (those with fewer than n rows of strictly greater id,
the deletion criterion of the SQL statement) are exactly the last n rows. -/
theorem filter_top_eq_takeLast (n : Nat) :
    ∀ l : List LogEntry, l.Pairwise (fun a b => a.id < b.id) →
      l.filter (fun e => decide (l.countP (fun e2 => decide (e.id < e2.id)) < n)) =
        takeLast n l := by
  intro l
  induction l with
  | nil => intro _; simp [takeLast]
  | cons a t ih =>
    intro hp
    obtain ⟨ha, ht⟩ := List.pairwise_cons.mp hp
    have hcount_a : (a :: t).countP (fun e2 => decide (a.id < e2.id)) = t.length := by
      rw [List.countP_cons, List.countP_eq_length.mpr (fun b hb => decide_eq_true (ha b hb))]
      simp
    have hcount_t : ∀ e ∈ t,
        (a :: t).countP (fun e2 => decide (e.id < e2.id)) =
          t.countP (fun e2 => decide (e.id < e2.id)) := by
      intro e he
      rw [List.countP_cons]
      have hna : ¬ e.id < a.id := by
        have := ha e he
        omega
      simp [hna]
    have hsplit :
        List.filter (fun e => decide ((a :: t).countP (fun e2 => decide (e.id < e2.id)) < n)) t =
          List.filter (fun e => decide (t.countP (fun e2 => decide (e.id < e2.id)) < n)) t :=
      List.filter_congr (fun e he => by rw [hcount_t e he])
    rw [List.filter_cons]
    by_cases hlen : t.length < n
    · have hpa : decide ((a :: t).countP (fun e2 => decide (a.id < e2.id)) < n) = true := by
        rw [hcount_a]
        exact decide_eq_true hlen
      rw [hpa, if_pos rfl, hsplit, ih ht, takeLast_of_length_le (le_of_lt hlen),
        takeLast_cons_of_length_lt hlen]
    · have hpa : decide ((a :: t).countP (fun e2 => decide (a.id < e2.id)) < n) = false := by
        rw [hcount_a]
        exact decide_eq_false hlen
      rw [hpa]
      simp only [Bool.false_eq_true, if_false]
      rw [hsplit, ih ht, takeLast_cons_of_le_length (not_lt.mp hlen)]

/-- C4: every append leaves at most 50 stored rows; for a state whose log
ids ascend along the list and stay below the autoincrement counter, the
rows stored after an append are exactly those rows of the inserted list
with fewer than 50 rows of strictly greater id, i.e. the 50 most recent by
id; and after more than 50 sequential appendStatus calls (truthy messages,
valid token) onto a state within the retention bound, readStatus(50)
returns exactly the last 50 appended messages newest first, while every row
any readStatus of any limit returns carries one of those last 50 messages,
so no earlier message is retrievable. -/
theorem C4_log_retention (msg : Json) (now : Int) (db : DB)
    (hpair : db.drone_logs.Pairwise (fun a b => a.id < b.id))
    (hid : ∀ e ∈ db.drone_logs, e.id < db.next_log_id)
    (cfg : Config) (msgs : List Json) (now2 : Int) (db2 : DB)
    (htr : ∀ m ∈ msgs, pyTruthy m = true)
    (hlen2 : db2.drone_logs.length ≤ 50) (hN : 50 < msgs.length) :
    (add_log_entry msg now db).drone_logs.length ≤ 50 ∧
    (add_log_entry msg now db).drone_logs =
      (db.drone_logs ++ [LogEntry.mk db.next_log_id msg now]).filter
        (fun e => decide ((db.drone_logs ++ [LogEntry.mk db.next_log_id msg now]).countP
          (fun e2 => decide (e.id < e2.id)) < 50)) ∧
    get_recent_logs 50 (appendAll cfg msgs now2 db2) =
      ((takeLast 50 msgs).map (fun m => (m, now2))).reverse ∧
    (∀ limit : Nat, ∀ p ∈ get_recent_logs limit (appendAll cfg msgs now2 db2),
      p.1 ∈ takeLast 50 msgs) := by
  have hpair2 : (db.drone_logs ++ [LogEntry.mk db.next_log_id msg now]).Pairwise
      (fun a b => a.id < b.id) := by
    rw [List.pairwise_append]
    refine ⟨hpair, by simp, ?_⟩
    intro a ha b hb
    rw [List.mem_singleton.mp hb]
    exact hid a ha
  have hlogs : (appendAll cfg msgs now2 db2).drone_logs =
      takeLast 50 (enumLogs db2.next_log_id now2 msgs) := by
    rw [appendAll_drone_logs cfg now2 msgs db2 htr hlen2,
      takeLast_append_of_le_length (by rw [enumLogs_length]; omega)]
  refine ⟨takeLast_length_le 50 _, (filter_top_eq_takeLast 50 _ hpair2).symm, ?_, ?_⟩
  · unfold get_recent_logs
    rw [hlogs, takeLast_reverse_eq, List.take_take, min_self, List.map_take,
      List.map_reverse, enumLogs_map_pair, map_takeLast, takeLast_reverse_eq]
  · intro limit p hp
    unfold get_recent_logs at hp
    rw [hlogs] at hp
    obtain ⟨e, he, hfe⟩ := List.mem_map.mp hp
    have he2 : e ∈ takeLast 50 (enumLogs db2.next_log_id now2 msgs) :=
      List.mem_reverse.mp (List.mem_of_mem_take he)
    have hmem : e.message ∈
        (takeLast 50 (enumLogs db2.next_log_id now2 msgs)).map (fun x => x.message) :=
      List.mem_map.mpr ⟨e, he2, rfl⟩
    rw [map_takeLast, enumLogs_map_message] at hmem
    rw [← hfe]
    exact hmem

/-- Concrete instance of C4_log_retention: one append from the initial
state stays within the bound, and after 51 appends of the message m the
default-configured readStatus(50) returns the last 50 copies newest
first. -/
theorem C4_log_retention_witness :
    (add_log_entry (Json.str "x") 0 initDB).drone_logs.length ≤ 50 ∧
    get_recent_logs 50 (appendAll defaultConfig (List.replicate 51 (Json.str "m")) 4 initDB) =
      ((takeLast 50 (List.replicate 51 (Json.str "m"))).map (fun m => (m, (4 : Int)))).reverse := by
  have h := C4_log_retention (Json.str "x") 0 initDB List.Pairwise.nil
      (by intro e he; simp [initDB] at he)
      defaultConfig (List.replicate 51 (Json.str "m")) 4 initDB
      (fun m hm => by rw [List.eq_of_mem_replicate hm]; rfl)
      (by simp [initDB]) (by simp)
  exact ⟨h.1, h.2.2.1⟩
